import Mathlib

/-!
A shallow embedding of the request-dispatch core of the Kerya API gateway
(`src/api_gateway/`): the routing table, router, circuit breaker, rate
limiter, health monitor, forwarder and the orchestrating request pipeline.

The configuration values and the route table are taken from
`src/api_gateway/config.py`; the HTTP route registration order and the
`proxy_request` / `health_check` / `api_status` handlers are taken from
`src/api_gateway/main.py`.  The bodies of `GatewayService`, the middleware
classes and the rate-limit service are not part of the source tree (only
their callers and configuration are), so those operations are modelled
from the specification, as indicated on each definition.
-/

/-- A static routing entry, one per backend service, from
`APIGatewaySettings.service_routes` in `src/api_gateway/config.py`:
service name (the dict key), path prefix (config key named prefix),
target service URL, health-check path, and the per-route rate-limit
policy (requests per window seconds). -/
structure ServiceRoute where
  name : String
  pathPrefix : String
  service_url : String
  health_check : String
  rl_requests : Nat
  rl_window : Nat
deriving DecidableEq, Repr

/-- The registered route table of `src/api_gateway/config.py`
(`service_routes`), in configuration (insertion) order. -/
def service_routes : List ServiceRoute :=
  [ ⟨"auth", "/api/v1/auth", "http://user_service:8001", "/health", 100, 60⟩,
    ⟨"users", "/api/v1/users", "http://user_service:8001", "/health", 200, 60⟩,
    ⟨"properties", "/api/v1/properties", "http://property_service:8002", "/health", 300, 60⟩,
    ⟨"bookings", "/api/v1/bookings", "http://booking_service:8003", "/health", 200, 60⟩,
    ⟨"posts", "/api/v1/posts", "http://post_service:8006", "/health", 150, 60⟩,
    ⟨"reviews", "/api/v1/reviews", "http://review_service:8005", "/health", 100, 60⟩ ]

/-- `circuit_breaker_failure_threshold` from `src/api_gateway/config.py`. -/
def circuit_breaker_failure_threshold : Nat := 5

/-- `circuit_breaker_recovery_timeout` from `src/api_gateway/config.py`. -/
def circuit_breaker_recovery_timeout : Nat := 60

/-- `max_retries` from `src/api_gateway/config.py`. -/
def max_retries : Nat := 3

/-- `global_rate_limit_requests` from `src/api_gateway/config.py`. -/
def global_rate_limit_requests : Nat := 1000

/-- `global_rate_limit_window` from `src/api_gateway/config.py`. -/
def global_rate_limit_window : Nat := 60

/-- `app_version` from `src/shared/config.py`. -/
def app_version : String := "1.0.0"

/-- A route matches an inbound path when its registered path prefix is a
string prefix of the path (character-wise). -/
def routeMatches (r : ServiceRoute) (path : String) : Bool :=
  r.pathPrefix.data.isPrefixOf path.data

/-- Modelled from the spec: the Router's resolve operation
(`GatewayService.get_target_service`); `services/gateway_service.py` is not
in the source tree, only its caller `proxy_request` in
`src/api_gateway/main.py` is.  Per spec section 4.1 it returns the
registered route whose path prefix is the longest prefix of the inbound
path, the first registered route winning ties, and `none` (NotFound) when
no registered prefix matches. -/
def resolve : List ServiceRoute → String → Option ServiceRoute
  | [], _ => none
  | r :: rs, path =>
    match resolve rs path with
    | none => if routeMatches r path then some r else none
    | some b =>
      if routeMatches r path && b.pathPrefix.length ≤ r.pathPrefix.length then some r
      else some b

/-- The length of the longest registered prefix matching `path`
(`0` when no route matches). -/
def maxMatchLen (routes : List ServiceRoute) (path : String) : Nat :=
  routes.foldr (fun r acc => if routeMatches r path then max r.pathPrefix.length acc else acc) 0

/-- Declarative routing contract, following the spec's words: the first
registered route whose prefix matches the path with maximal length. -/
def resolveSpec (routes : List ServiceRoute) (path : String) : Option ServiceRoute :=
  routes.find? (fun r => routeMatches r path && r.pathPrefix.length == maxMatchLen routes path)

theorem maxMatchLen_cons (a : ServiceRoute) (rs : List ServiceRoute) (path : String) :
    maxMatchLen (a :: rs) path =
      if routeMatches a path then max a.pathPrefix.length (maxMatchLen rs path)
      else maxMatchLen rs path := rfl

theorem le_maxMatchLen (routes : List ServiceRoute) (path : String) (r : ServiceRoute)
    (hr : r ∈ routes) (hm : routeMatches r path = true) :
    r.pathPrefix.length ≤ maxMatchLen routes path := by
  induction routes with
  | nil => cases hr
  | cons a rs ih =>
    rw [maxMatchLen_cons]
    rcases List.mem_cons.mp hr with h | h
    · subst h
      rw [if_pos hm]
      exact le_max_left _ _
    · have hle := ih h
      by_cases ha : routeMatches a path = true
      · rw [if_pos ha]
        exact le_trans hle (le_max_right _ _)
      · rw [if_neg ha]
        exact hle

theorem maxMatchLen_eq_zero (routes : List ServiceRoute) (path : String)
    (h : ∀ r ∈ routes, routeMatches r path = false) :
    maxMatchLen routes path = 0 := by
  induction routes with
  | nil => rfl
  | cons a rs ih =>
    have ha : ¬ routeMatches a path = true := by
      rw [h a (List.mem_cons_self a rs)]
      exact Bool.false_ne_true
    rw [maxMatchLen_cons, if_neg ha]
    exact ih (fun r hr => h r (List.mem_cons_of_mem a hr))

theorem resolve_cons_none (a : ServiceRoute) (rs : List ServiceRoute) (path : String)
    (h : resolve rs path = none) :
    resolve (a :: rs) path = if routeMatches a path then some a else none := by
  simp only [resolve, h]

theorem resolve_cons_some (a : ServiceRoute) (rs : List ServiceRoute) (path : String)
    (b : ServiceRoute) (h : resolve rs path = some b) :
    resolve (a :: rs) path =
      if routeMatches a path && b.pathPrefix.length ≤ a.pathPrefix.length then some a
      else some b := by
  simp only [resolve, h]

theorem resolve_eq_none_iff (routes : List ServiceRoute) (path : String) :
    resolve routes path = none ↔ ∀ r ∈ routes, routeMatches r path = false := by
  induction routes with
  | nil => simp [resolve]
  | cons a rs ih =>
    constructor
    · intro h
      cases hres : resolve rs path with
      | none =>
        rw [resolve_cons_none a rs path hres] at h
        by_cases ha : routeMatches a path = true
        · rw [if_pos ha] at h; cases h
        · intro r hr
          rcases List.mem_cons.mp hr with he | he
          · subst he; exact Bool.eq_false_iff.mpr ha
          · exact (ih.mp hres) r he
      | some b =>
        rw [resolve_cons_some a rs path b hres] at h
        split at h <;> cases h
    · intro h
      have hrs : resolve rs path = none :=
        ih.mpr (fun r hr => h r (List.mem_cons_of_mem a hr))
      have ha : ¬ routeMatches a path = true := by
        rw [h a (List.mem_cons_self a rs)]
        exact Bool.false_ne_true
      rw [resolve_cons_none a rs path hrs, if_neg ha]

theorem resolveSpec_cons_expand (a : ServiceRoute) (rs : List ServiceRoute) (path : String) :
    resolveSpec (a :: rs) path =
      List.find?
        (fun r => routeMatches r path && r.pathPrefix.length == maxMatchLen (a :: rs) path)
        (a :: rs) := rfl

theorem find?_cons_of_true {α : Type} (p : α → Bool) (a : α) (l : List α)
    (h : p a = true) : List.find? p (a :: l) = some a := by
  simp [List.find?, h]

theorem find?_cons_of_false {α : Type} (p : α → Bool) (a : α) (l : List α)
    (h : p a = false) : List.find? p (a :: l) = List.find? p l := by
  simp [List.find?, h]

theorem resolve_eq_resolveSpec (routes : List ServiceRoute) (path : String) :
    resolve routes path = resolveSpec routes path := by
  induction routes with
  | nil => rfl
  | cons a rs ih =>
    rw [resolveSpec_cons_expand]
    by_cases ha : routeMatches a path = true
    · cases hres : resolve rs path with
      | none =>
        have hzero : maxMatchLen rs path = 0 :=
          maxMatchLen_eq_zero rs path ((resolve_eq_none_iff rs path).mp hres)
        have hM : maxMatchLen (a :: rs) path = a.pathPrefix.length := by
          rw [maxMatchLen_cons, if_pos ha, hzero]
          exact max_eq_left (Nat.zero_le _)
        have hp : (routeMatches a path && a.pathPrefix.length == maxMatchLen (a :: rs) path) = true := by
          rw [ha, hM, Bool.true_and]
          exact beq_self_eq_true _
        rw [resolve_cons_none a rs path hres, if_pos ha,
          find?_cons_of_true
            (fun r => routeMatches r path && r.pathPrefix.length == maxMatchLen (a :: rs) path)
            a rs hp]
      | some b =>
        have hspec0 : resolveSpec rs path = some b := ih ▸ hres
        have hspec : List.find?
            (fun r => routeMatches r path && r.pathPrefix.length == maxMatchLen rs path) rs
            = some b := hspec0
        have hbp := List.find?_some hspec
        have hbl : b.pathPrefix.length = maxMatchLen rs path := by
          have hand := (Bool.and_eq_true _ _).mp hbp
          exact eq_of_beq hand.2
        by_cases hle : maxMatchLen rs path ≤ a.pathPrefix.length
        · have hM : maxMatchLen (a :: rs) path = a.pathPrefix.length := by
            rw [maxMatchLen_cons, if_pos ha]
            exact max_eq_left hle
          have hp : (routeMatches a path && a.pathPrefix.length == maxMatchLen (a :: rs) path) = true := by
            rw [ha, hM, Bool.true_and]
            exact beq_self_eq_true _
          have hcond : (routeMatches a path && decide (b.pathPrefix.length ≤ a.pathPrefix.length)) = true := by
            rw [ha, Bool.true_and, hbl]
            exact decide_eq_true hle
          rw [resolve_cons_some a rs path b hres, if_pos hcond,
            find?_cons_of_true
              (fun r => routeMatches r path && r.pathPrefix.length == maxMatchLen (a :: rs) path)
              a rs hp]
        · push_neg at hle
          have hM : maxMatchLen (a :: rs) path = maxMatchLen rs path := by
            rw [maxMatchLen_cons, if_pos ha]
            exact max_eq_right (le_of_lt hle)
          have hcond : ¬ ((routeMatches a path && decide (b.pathPrefix.length ≤ a.pathPrefix.length)) = true) := by
            rw [ha, Bool.true_and, hbl]
            intro hc
            exact absurd (of_decide_eq_true hc) (by omega)
          have hp : (routeMatches a path && a.pathPrefix.length == maxMatchLen (a :: rs) path) = false := by
            rw [ha, hM, Bool.true_and]
            exact beq_eq_false_iff_ne.mpr (by omega)
          rw [resolve_cons_some a rs path b hres, if_neg hcond,
            find?_cons_of_false
              (fun r => routeMatches r path && r.pathPrefix.length == maxMatchLen (a :: rs) path)
              a rs hp, hM]
          exact hspec.symm
    · have haf : routeMatches a path = false := Bool.eq_false_iff.mpr ha
      have hM : maxMatchLen (a :: rs) path = maxMatchLen rs path := by
        rw [maxMatchLen_cons, if_neg ha]
      have hp : (routeMatches a path && a.pathPrefix.length == maxMatchLen (a :: rs) path) = false := by
        rw [haf, Bool.false_and]
      cases hres : resolve rs path with
      | none =>
        have hspec0 : resolveSpec rs path = none := ih ▸ hres
        have hspec : List.find?
            (fun r => routeMatches r path && r.pathPrefix.length == maxMatchLen rs path) rs
            = none := hspec0
        rw [resolve_cons_none a rs path hres, if_neg ha,
          find?_cons_of_false
            (fun r => routeMatches r path && r.pathPrefix.length == maxMatchLen (a :: rs) path)
            a rs hp, hM]
        exact hspec.symm
      | some b =>
        have hspec0 : resolveSpec rs path = some b := ih ▸ hres
        have hspec : List.find?
            (fun r => routeMatches r path && r.pathPrefix.length == maxMatchLen rs path) rs
            = some b := hspec0
        have hcond : ¬ ((routeMatches a path && decide (b.pathPrefix.length ≤ a.pathPrefix.length)) = true) := by
          rw [haf, Bool.false_and]
          exact Bool.false_ne_true
        rw [resolve_cons_some a rs path b hres, if_neg hcond,
          find?_cons_of_false
            (fun r => routeMatches r path && r.pathPrefix.length == maxMatchLen (a :: rs) path)
            a rs hp, hM]
        exact hspec.symm

/-- C1: for every route table and inbound path, `resolve` (the router /
`get_target_service`) agrees with the declarative contract — it returns the
first registered route whose matching prefix has maximal length (so the
longest matching prefix wins, and among equal-length matches the
first-registered route wins, deterministically) — it returns `none`
(NotFound) exactly when no registered prefix is a prefix of the path, and
any returned route is a registered matching route of maximal prefix
length. -/
theorem c1_resolve_longest_prefix_first_wins (routes : List ServiceRoute) (path : String) :
    resolve routes path = resolveSpec routes path
    ∧ (resolve routes path = none ↔ ∀ r ∈ routes, routeMatches r path = false)
    ∧ (∀ r, resolve routes path = some r →
        r ∈ routes ∧ routeMatches r path = true ∧
        ∀ x ∈ routes, routeMatches x path = true →
          x.pathPrefix.length ≤ r.pathPrefix.length) := by
  refine ⟨resolve_eq_resolveSpec routes path, resolve_eq_none_iff routes path, ?_⟩
  intro r hr
  have hspec0 : resolveSpec routes path = some r := (resolve_eq_resolveSpec routes path) ▸ hr
  have hspec : List.find?
      (fun x => routeMatches x path && x.pathPrefix.length == maxMatchLen routes path) routes
      = some r := hspec0
  have hmem : r ∈ routes := List.mem_of_find?_eq_some hspec
  have hp := List.find?_some hspec
  have hp' := (Bool.and_eq_true _ _).mp hp
  have hlen : r.pathPrefix.length = maxMatchLen routes path := eq_of_beq hp'.2
  exact ⟨hmem, hp'.1, fun x hx hxm => hlen ▸ le_maxMatchLen routes path x hx hxm⟩

/-- C1 witness: on the registered route table, an unregistered path
resolves to NotFound, discharged at the concrete path `/api/v1/unknown/x`. -/
theorem c1_resolve_witness : resolve service_routes "/api/v1/unknown/x" = none :=
  (c1_resolve_longest_prefix_first_wins service_routes "/api/v1/unknown/x").2.1.mpr
    (by decide)

/-- Circuit-breaker states, per spec section 4.3: `closed`, `open`
(named `opened` here since `open` is a Lean keyword) and `half_open`
(`halfOpen`). -/
inductive CBState
  | closed
  | opened
  | halfOpen
deriving DecidableEq, Repr

/-- Per-service circuit-breaker record, per spec section 3
(`CircuitBreakerState`): state, failure count, time the circuit opened,
and time of the last failure.  Time is modelled as a natural number of
seconds. -/
structure CircuitBreaker where
  state : CBState
  failure_count : Nat
  opened_at : Nat
  last_failure_time : Nat
deriving DecidableEq, Repr

/-- A fresh breaker: closed with no recorded failures. -/
def initCB : CircuitBreaker := ⟨.closed, 0, 0, 0⟩

/-- Modelled from the spec: `record_outcome(service, success)` of the
Circuit Breaker (spec section 4.3; the implementation is not in the source
tree).  Transition rules: in `closed`, a success resets the consecutive
failure count and a failure increments it, opening the circuit once the
count reaches `circuit_breaker_failure_threshold`; in `half_open` the
first success closes the circuit (resetting the count to 0) and the first
failure re-opens it (resetting `opened_at` to now). -/
def cbRecord (cb : CircuitBreaker) (success : Bool) (now : Nat) : CircuitBreaker :=
  match cb.state, success with
  | .closed, true => { cb with failure_count := 0 }
  | .closed, false =>
    if circuit_breaker_failure_threshold ≤ cb.failure_count + 1 then
      ⟨.opened, cb.failure_count + 1, now, now⟩
    else
      { cb with failure_count := cb.failure_count + 1, last_failure_time := now }
  | .halfOpen, true => { cb with state := .closed, failure_count := 0 }
  | .halfOpen, false => { cb with state := .opened, opened_at := now, last_failure_time := now }
  | .opened, _ => cb

/-- Modelled from the spec: `allow(service)` of the Circuit Breaker (spec
section 4.3).  Requests flow in `closed` and `half_open` (trial); in
`open` the request is short-circuited unless `recovery_timeout` has
elapsed since `opened_at`, in which case the breaker lazily moves to
`half_open` and permits the trial request. -/
def cbAllow (cb : CircuitBreaker) (now : Nat) : Bool × CircuitBreaker :=
  match cb.state with
  | .closed => (true, cb)
  | .halfOpen => (true, cb)
  | .opened =>
    if circuit_breaker_recovery_timeout ≤ now - cb.opened_at then
      (true, { cb with state := .halfOpen })
    else
      (false, cb)

/-- `n` consecutive transient failures, all recorded at time `t`. -/
def failN : Nat → Nat → CircuitBreaker → CircuitBreaker
  | 0, _, cb => cb
  | n + 1, t, cb => failN n t (cbRecord cb false t)

theorem failN_from_closed_zero (t oa lf : Nat) :
    failN circuit_breaker_failure_threshold t ⟨.closed, 0, oa, lf⟩ = ⟨.opened, 5, t, t⟩ := by
  show failN 5 t _ = _
  simp only [failN, cbRecord, circuit_breaker_failure_threshold]
  norm_num

/-- C3: the circuit-breaker state machine satisfies its invariants:
any transition into `closed` from a different state leaves
`failure_count = 0`; `open → half_open` happens through `allow` only when
`now - opened_at ≥ circuit_breaker_recovery_timeout`; from `half_open`
the first recorded success moves to `closed` (count 0) and the first
recorded failure moves back to `open`; and from a fresh closed breaker,
`circuit_breaker_failure_threshold` (5) consecutive transient failures
open the circuit, after which `allow` returns `false` until the recovery
timeout has elapsed and `true` once it has. -/
theorem c3_circuit_breaker_invariants (cb : CircuitBreaker) (success : Bool) (now t : Nat) :
    (cb.state ≠ .closed → (cbRecord cb success now).state = .closed →
      (cbRecord cb success now).failure_count = 0)
    ∧ (cb.state = .opened → (cbAllow cb now).2.state = .halfOpen →
      circuit_breaker_recovery_timeout ≤ now - cb.opened_at)
    ∧ (cb.state = .halfOpen →
      (cbRecord cb true now).state = .closed
      ∧ (cbRecord cb true now).failure_count = 0
      ∧ (cbRecord cb false now).state = .opened)
    ∧ (cb.state = .closed → cb.failure_count = 0 →
      (failN circuit_breaker_failure_threshold t cb).state = .opened
      ∧ (now - t < circuit_breaker_recovery_timeout →
          (cbAllow (failN circuit_breaker_failure_threshold t cb) now).1 = false)
      ∧ (circuit_breaker_recovery_timeout ≤ now - t →
          (cbAllow (failN circuit_breaker_failure_threshold t cb) now).1 = true)) := by
  obtain ⟨s, fc, oa, lf⟩ := cb
  refine ⟨?_, ?_, ?_, ?_⟩
  · intro hne hcl
    cases s with
    | closed => exact absurd rfl hne
    | opened =>
      simp only [cbRecord] at hcl ⊢
      cases success <;> simp_all
    | halfOpen =>
      cases success <;> simp_all [cbRecord]
  · intro hs hhalf
    simp only at hs
    subst hs
    simp only [cbAllow] at hhalf
    split at hhalf
    · assumption
    · simp at hhalf
  · intro hs
    simp only at hs
    subst hs
    simp [cbRecord]
  · intro hs hfc
    simp only at hs hfc
    subst hs
    subst hfc
    rw [failN_from_closed_zero]
    refine ⟨rfl, ?_, ?_⟩
    · intro hlt
      simp only [cbAllow]
      rw [if_neg (by omega)]
    · intro hge
      simp only [cbAllow]
      rw [if_pos (by omega)]

/-- C3 witness: from a fresh breaker, 5 consecutive failures at time 0
leave the circuit open and `allow` refuses at time 30 (recovery timeout
60 not yet elapsed), allows again at time 60, and a half-open trial
success closes the circuit with a zero failure count. -/
theorem c3_circuit_breaker_witness :
    (failN circuit_breaker_failure_threshold 0 initCB).state = .opened
    ∧ (cbAllow (failN circuit_breaker_failure_threshold 0 initCB) 30).1 = false
    ∧ (cbAllow (failN circuit_breaker_failure_threshold 0 initCB) 60).1 = true
    ∧ (cbRecord ⟨.halfOpen, 0, 0, 0⟩ true 99).state = .closed :=
  ⟨((c3_circuit_breaker_invariants initCB true 30 0).2.2.2 rfl rfl).1,
    ((c3_circuit_breaker_invariants initCB true 30 0).2.2.2 rfl rfl).2.1 (by decide),
    ((c3_circuit_breaker_invariants initCB true 60 0).2.2.2 rfl rfl).2.2 (by decide),
    ((c3_circuit_breaker_invariants ⟨.halfOpen, 0, 0, 0⟩ true 99 0).2.2.1 rfl).1⟩

/-- The outcome of one forwarding attempt, per spec section 3
(`ForwardAttempt.outcome`): success, timeout, connection error, or an
HTTP response with its status code. -/
inductive Outcome
  | success
  | timeout
  | connection_error
  | http (status : Nat)
deriving DecidableEq, Repr

/-- Modelled from the spec: how a forwarding outcome feeds the circuit
breaker (spec sections 4.3 and 7).  Timeouts, connection errors and 5xx
responses are failures (`some false`); 2xx/3xx responses and plain
success are successes (`some true`); 4xx client errors do not affect
circuit state at all (`none`). -/
def classifyOutcome : Outcome → Option Bool
  | .success => some true
  | .timeout => some false
  | .connection_error => some false
  | .http s => if 500 ≤ s then some false else if 400 ≤ s then none else some true

/-- Recording one aggregate forwarding outcome into the breaker:
a no-op for 4xx client errors, otherwise `cbRecord` with the
success/failure classification. -/
def cbRecordOutcome (cb : CircuitBreaker) (o : Outcome) (now : Nat) : CircuitBreaker :=
  match classifyOutcome o with
  | none => cb
  | some success => cbRecord cb success now

/-- C4: a 4xx backend response never increments the breaker's failure
count and never moves it out of `closed` (the breaker record is untouched),
and the failure count increases only for timeouts, connection errors and
5xx responses. -/
theorem c4_client_errors_do_not_trip_breaker (cb : CircuitBreaker) (s : Nat) (o : Outcome) (now : Nat) :
    (400 ≤ s → s < 500 → cbRecordOutcome cb (.http s) now = cb)
    ∧ ((cbRecordOutcome cb o now).failure_count > cb.failure_count →
      o = .timeout ∨ o = .connection_error ∨ ∃ k, o = .http k ∧ 500 ≤ k) := by
  constructor
  · intro h4 h5
    simp only [cbRecordOutcome, classifyOutcome]
    rw [if_neg (by omega), if_pos h4]
  · intro hinc
    cases o with
    | success =>
      exfalso
      obtain ⟨st, fc, oa, lf⟩ := cb
      cases st <;> simp [cbRecordOutcome, classifyOutcome, cbRecord] at hinc
    | timeout => exact Or.inl rfl
    | connection_error => exact Or.inr (Or.inl rfl)
    | http k =>
      by_cases h5 : 500 ≤ k
      · exact Or.inr (Or.inr ⟨k, rfl, h5⟩)
      · exfalso
        by_cases h4 : 400 ≤ k
        · simp only [cbRecordOutcome, classifyOutcome] at hinc
          rw [if_neg (by omega), if_pos h4] at hinc
          simp at hinc
        · obtain ⟨st, fc, oa, lf⟩ := cb
          simp only [cbRecordOutcome, classifyOutcome] at hinc
          rw [if_neg (by omega), if_neg (by omega)] at hinc
          cases st <;> simp [cbRecord] at hinc

/-- C4 witness: a 404 backend response leaves a fresh closed breaker
completely untouched. -/
theorem c4_client_errors_witness : cbRecordOutcome initCB (.http 404) 7 = initCB :=
  (c4_client_errors_do_not_trip_breaker initCB 404 (.http 404) 7).1 (by decide) (by decide)

/-- A per-key rate-limit window, per spec section 3 (`RateLimitWindow`):
the request count and the time the current window started. -/
structure RateWindow where
  count : Nat
  window_start : Nat
deriving DecidableEq, Repr

/-- Modelled from the spec: the Rate Limiter's
`check_and_increment(key, limit, window_seconds)` (spec section 4.4; the
implementation — `RateLimitService.check_rate_limit`, called from
`src/user_service/routes/auth.py`, and the gateway's rate-limit
middleware — is not in the source tree).  Fixed-window counting: a
missing or elapsed window resets entirely to a fresh window starting
now; below the limit the count is incremented and the request is
allowed; at the limit the request is rejected without incrementing. -/
def checkAndIncrement (w : Option RateWindow) (limit window_seconds now : Nat) :
    Bool × RateWindow :=
  let cur : RateWindow :=
    match w with
    | none => ⟨0, now⟩
    | some e => if window_seconds ≤ now - e.window_start then ⟨0, now⟩ else e
  if cur.count < limit then (true, ⟨cur.count + 1, cur.window_start⟩)
  else (false, cur)

/-- C5: with `limit = 3` and `window = 60`, the first three calls for a
fresh key within one window are allowed (the window keeping its original
start and counting 1, 2, 3), the fourth call inside the same window is
rejected without pushing the counter past the limit, and a call after the
window has elapsed is allowed again on a fully reset window. -/
theorem c5_fixed_window_rate_limit (t0 t1 t2 t3 t4 : Nat)
    (h1 : t1 - t0 < 60) (h2 : t2 - t0 < 60) (h3 : t3 - t0 < 60) (h4 : 60 ≤ t4 - t0) :
    checkAndIncrement none 3 60 t0 = (true, ⟨1, t0⟩)
    ∧ checkAndIncrement (some ⟨1, t0⟩) 3 60 t1 = (true, ⟨2, t0⟩)
    ∧ checkAndIncrement (some ⟨2, t0⟩) 3 60 t2 = (true, ⟨3, t0⟩)
    ∧ checkAndIncrement (some ⟨3, t0⟩) 3 60 t3 = (false, ⟨3, t0⟩)
    ∧ checkAndIncrement (some ⟨3, t0⟩) 3 60 t4 = (true, ⟨1, t4⟩) := by
  refine ⟨?_, ?_, ?_, ?_, ?_⟩
  · rfl
  · simp only [checkAndIncrement]
    rw [if_neg (by omega : ¬ 60 ≤ t1 - t0)]
    norm_num
  · simp only [checkAndIncrement]
    rw [if_neg (by omega : ¬ 60 ≤ t2 - t0)]
    norm_num
  · simp only [checkAndIncrement]
    rw [if_neg (by omega : ¬ 60 ≤ t3 - t0)]
    norm_num
  · simp only [checkAndIncrement]
    rw [if_pos (by omega : 60 ≤ t4 - t0)]
    norm_num

/-- C5 witness: the five-call scenario at concrete times 0, 10, 20, 30
and 60. -/
theorem c5_fixed_window_rate_limit_witness :
    checkAndIncrement (some ⟨3, 0⟩) 3 60 30 = (false, ⟨3, 0⟩)
    ∧ checkAndIncrement (some ⟨3, 0⟩) 3 60 60 = (true, ⟨1, 60⟩) :=
  ⟨(c5_fixed_window_rate_limit 0 10 20 30 60
      (by decide) (by decide) (by decide) (by decide)).2.2.2.1,
    (c5_fixed_window_rate_limit 0 10 20 30 60
      (by decide) (by decide) (by decide) (by decide)).2.2.2.2⟩

/-- Health status of a backend service, per spec section 3
(`ServiceHealth.status`). -/
inductive HealthStatus
  | healthy
  | unhealthy
  | unknown
deriving DecidableEq, Repr

/-- Per-service health record, per spec section 3 (`ServiceHealth`). -/
structure ServiceHealth where
  status : HealthStatus
  consecutive_failures : Nat
  last_check_time : Nat
deriving DecidableEq, Repr

/-- A service whose health has never been probed. -/
def initHealth : ServiceHealth := ⟨.unknown, 0, 0⟩

/-- The result of one health probe: success (2xx within the timeout) or
failure (timeout, connection error, or non-2xx). -/
inductive ProbeResult
  | ok
  | failed
deriving DecidableEq, Repr

/-- Modelled from the spec: the Health Monitor's reaction to one probe
(spec section 4.2; the implementation is not in the source tree).
A successful probe marks the service healthy and resets
`consecutive_failures`; a failed probe increments `consecutive_failures`
and marks the service unhealthy once the configured threshold is
reached. -/
def applyProbe (h : ServiceHealth) (r : ProbeResult) (now threshold : Nat) : ServiceHealth :=
  match r with
  | .ok => ⟨.healthy, 0, now⟩
  | .failed =>
    ⟨if threshold ≤ h.consecutive_failures + 1 then .unhealthy else h.status,
      h.consecutive_failures + 1, now⟩

/-- A sequence of successful probes at the given times, applied in order. -/
def probeSuccesses (h : ServiceHealth) (threshold : Nat) (times : List Nat) : ServiceHealth :=
  times.foldl (fun s t => applyProbe s .ok t threshold) h

theorem probeSuccesses_of_healthy (threshold : Nat) (times : List Nat) (h : ServiceHealth)
    (hst : h.status = .healthy) (hcf : h.consecutive_failures = 0) :
    (probeSuccesses h threshold times).status = .healthy
    ∧ (probeSuccesses h threshold times).consecutive_failures = 0 := by
  induction times generalizing h with
  | nil => exact ⟨hst, hcf⟩
  | cons t rest ih =>
    simp only [probeSuccesses, List.foldl] at ih ⊢
    exact ih (applyProbe h .ok t threshold) rfl rfl

/-- C8: successful health probes are idempotent on the health state —
after the first success, any further sequence of successful probes leaves
`status = healthy` and `consecutive_failures = 0`, whatever the starting
state and the failure threshold. -/
theorem c8_healthy_probe_idempotent (h : ServiceHealth) (threshold : Nat)
    (times : List Nat) (hne : times ≠ []) :
    (probeSuccesses h threshold times).status = .healthy
    ∧ (probeSuccesses h threshold times).consecutive_failures = 0 := by
  cases times with
  | nil => exact absurd rfl hne
  | cons t rest =>
    simp only [probeSuccesses, List.foldl]
    exact probeSuccesses_of_healthy threshold rest (applyProbe h .ok t threshold) rfl rfl

/-- C8 witness: three successful probes from an unknown state with five
prior consecutive failures end healthy with a zero failure count. -/
theorem c8_healthy_probe_idempotent_witness :
    (probeSuccesses ⟨.unknown, 5, 0⟩ 3 [1, 2, 3]).status = .healthy
    ∧ (probeSuccesses ⟨.unknown, 5, 0⟩ 3 [1, 2, 3]).consecutive_failures = 0 :=
  c8_healthy_probe_idempotent ⟨.unknown, 5, 0⟩ 3 [1, 2, 3] (by decide)

/-- HTTP methods handled by the gateway's proxy route
(`src/api_gateway/main.py` line 217) plus HEAD, which the spec's default
retry policy distinguishes. -/
inductive Method
  | GET
  | HEAD
  | POST
  | PUT
  | DELETE
  | PATCH
deriving DecidableEq, Repr

/-- Default idempotent methods eligible for automatic retry, per spec
section 4.5: GET and HEAD only. -/
def isIdempotentDefault : Method → Bool
  | .GET => true
  | .HEAD => true
  | _ => false

/-- Transient (retryable) attempt outcomes, per spec section 4.5:
connection errors, timeouts, and 502/503/504 responses.  4xx responses
are never retryable. -/
def isRetryable : Outcome → Bool
  | .timeout => true
  | .connection_error => true
  | .http s => s == 502 || s == 503 || s == 504
  | .success => false

/-- The result of one forwarding call: the final aggregate outcome, the
number of attempts made, and the list of outcomes reported to the
circuit breaker (exactly the one aggregate outcome). -/
structure ForwardResult where
  final : Outcome
  attempts : Nat
  reports : List Outcome
deriving DecidableEq, Repr

/-- The attempt loop of the forwarder: `backend i` is the outcome of the
i-th outbound attempt; the loop retries while the outcome is transient,
retrying is allowed for the method, and retries remain.  Returns the
final outcome and the total number of attempts made. -/
def forwardLoop (backend : Nat → Outcome) (retryOk : Bool) : Nat → Nat → Outcome × Nat
  | idx, 0 => (backend idx, idx + 1)
  | idx, n + 1 =>
    if isRetryable (backend idx) && retryOk then forwardLoop backend retryOk (idx + 1) n
    else (backend idx, idx + 1)

/-- Modelled from the spec: the Forwarder's `forward` (spec section 4.5;
the implementation is not in the source tree).  Performs the initial
attempt plus up to `max_retries` retries on transient failures for
idempotent (GET/HEAD) methods, and reports exactly one aggregate outcome
to the circuit breaker. -/
def forward (m : Method) (backend : Nat → Outcome) : ForwardResult :=
  match forwardLoop backend (isIdempotentDefault m) 0 max_retries with
  | (o, n) => ⟨o, n, [o]⟩

/-- The backend behaviour of the spec's retry example: 503 on the first
three attempts, 200 afterwards. -/
def backend503 : Nat → Outcome :=
  fun i => if i < 3 then .http 503 else .http 200

theorem forwardLoop_attempts_le (backend : Nat → Outcome) (retryOk : Bool)
    (n idx : Nat) :
    (forwardLoop backend retryOk idx n).2 ≤ idx + n + 1 := by
  induction n generalizing idx with
  | zero => simp [forwardLoop]
  | succ k ih =>
    simp only [forwardLoop]
    split
    · exact le_trans (ih (idx + 1)) (by omega)
    · show idx + 1 ≤ idx + (k + 1) + 1
      omega

theorem forwardLoop_no_retry (backend : Nat → Outcome) (n idx : Nat) :
    forwardLoop backend false idx n = (backend idx, idx + 1) := by
  cases n with
  | zero => rfl
  | succ k => simp [forwardLoop]

/-- C6 counterexample: the claim requires both "at most `max_retries`
(3) attempts" and that a GET answered 503, 503, 503, 200 succeeds — but
reaching the 200 takes a fourth attempt, so the attempt bound as stated
is violated on this very input. -/
theorem c6_counterexample_four_attempts :
    (forward .GET backend503).final = .http 200
    ∧ (forward .GET backend503).attempts = 4
    ∧ ¬ (forward .GET backend503).attempts ≤ max_retries := by
  refine ⟨rfl, rfl, ?_⟩
  intro h
  simp [max_retries] at h
  exact absurd (show (forward .GET backend503).attempts = 4 from rfl) (by omega)

/-- C6 (amended): the forwarder makes at most `max_retries + 1` attempts
(one initial attempt plus up to `max_retries` = 3 retries); it reports
exactly one aggregate outcome per call (the final one); it never retries
for non-idempotent methods (POST/PUT/PATCH/DELETE make exactly one
attempt); a 4xx first response is returned after exactly one attempt
(4xx is never retried); and a GET whose backend answers 503, 503, 503,
200 ends with the 200 response after 4 attempts, reporting the single
aggregate outcome `http 200`, which the breaker classifies as a
success. -/
theorem c6_retry_policy (m : Method) (backend : Nat → Outcome) (s : Nat) :
    (forward m backend).attempts ≤ max_retries + 1
    ∧ (forward m backend).reports = [(forward m backend).final]
    ∧ (isIdempotentDefault m = false → (forward m backend).attempts = 1)
    ∧ (400 ≤ s → s < 500 → backend 0 = .http s →
        (forward m backend).attempts = 1 ∧ (forward m backend).final = .http s)
    ∧ (isIdempotentDefault m = true → (∀ i, i < 3 → backend i = .http 503) →
        backend 3 = .http 200 →
        (forward m backend).final = .http 200
        ∧ (forward m backend).attempts = 4
        ∧ (forward m backend).reports = [.http 200]
        ∧ classifyOutcome (.http 200) = some true) := by
  refine ⟨?_, ?_, ?_, ?_, ?_⟩
  · cases h : forwardLoop backend (isIdempotentDefault m) 0 max_retries with
    | mk o n =>
      have := forwardLoop_attempts_le backend (isIdempotentDefault m) max_retries 0
      rw [h] at this
      simpa [forward, h] using this
  · cases h : forwardLoop backend (isIdempotentDefault m) 0 max_retries with
    | mk o n => simp [forward, h]
  · intro hni
    rw [forward, hni, forwardLoop_no_retry]
  · intro h4 h5 hb
    have hnr : isRetryable (backend 0) = false := by
      rw [hb]
      simp only [isRetryable]
      have : ¬ (s = 502 ∨ s = 503 ∨ s = 504) := by omega
      simp only [Bool.or_eq_false_iff]
      refine ⟨⟨?_, ?_⟩, ?_⟩ <;> (rw [beq_eq_false_iff_ne]; omega)
    have hloop : forwardLoop backend (isIdempotentDefault m) 0 max_retries
        = (backend 0, 1) := by
      show forwardLoop backend (isIdempotentDefault m) 0 3 = _
      simp [forwardLoop, hnr]
    rw [forward, hloop, hb]
    exact ⟨rfl, rfl⟩
  · intro hid h503 h200
    have h0 := h503 0 (by omega)
    have h1 := h503 1 (by omega)
    have h2 := h503 2 (by omega)
    have hloop : forwardLoop backend (isIdempotentDefault m) 0 max_retries
        = (.http 200, 4) := by
      show forwardLoop backend (isIdempotentDefault m) 0 3 = _
      simp [forwardLoop, h0, h1, h2, h200, hid, isRetryable]
    rw [forward, hloop]
    exact ⟨rfl, rfl, rfl, rfl⟩

/-- C6 witness: the amended policy evaluated on the example backend —
GET against 503, 503, 503, 200 succeeds with outcome `http 200` after 4
attempts and reports exactly one success to the breaker. -/
theorem c6_retry_policy_witness :
    (forward .GET backend503).final = .http 200
    ∧ (forward .GET backend503).attempts = 4
    ∧ (forward .GET backend503).reports = [.http 200]
    ∧ classifyOutcome (.http 200) = some true :=
  (c6_retry_policy .GET backend503 404).2.2.2.2 rfl
    (by intro i hi; interval_cases i <;> rfl) rfl

/-- An inbound request as the gateway sees it: method, full path, and
client IP (the rate-limit identity when no user is authenticated). -/
structure Request where
  method : Method
  path : String
  client_ip : String
deriving DecidableEq, Repr

/-- A gateway response, reduced to its status code. -/
structure Response where
  status : Nat
deriving DecidableEq, Repr

/-- The gateway's mutable state: per-key rate-limit windows, per-service
circuit breakers, and per-service health records. -/
structure GatewayState where
  rateLimits : String → Option RateWindow
  breakers : String → CircuitBreaker
  health : String → ServiceHealth

/-- The state at startup: no rate-limit windows, all breakers closed,
all health unknown. -/
def initState : GatewayState :=
  ⟨fun _ => none, fun _ => initCB, fun _ => initHealth⟩

/-- The status code the gateway answers with for a final forwarding
outcome: backend statuses pass through; exhausted timeouts and
connection errors surface as 504 and 502 (spec section 7). -/
def statusOf : Outcome → Nat
  | .success => 200
  | .timeout => 504
  | .connection_error => 502
  | .http s => s

/-- The result of handling one inbound request: the response, the new
gateway state, and how many outbound network attempts were made. -/
structure HandleResult where
  resp : Response
  state : GatewayState
  outboundAttempts : Nat

/-- Modelled from the spec: one pass of the gateway pipeline.  The order
follows the source where the source shows it and the spec elsewhere:
`RateLimitMiddleware` is installed as global middleware
(`src/api_gateway/main.py` line 91) and therefore runs before routing for
every request; the route handler `proxy_request` (line 218) then resolves
the target service (404 if none), consults the circuit breaker and the
cached health state (503, no outbound call), and otherwise forwards,
recording the single aggregate outcome into the breaker. -/
def handleRequest (st : GatewayState) (req : Request) (now : Nat)
    (backend : Nat → Outcome) : HandleResult :=
  let rl := checkAndIncrement (st.rateLimits req.client_ip)
    global_rate_limit_requests global_rate_limit_window now
  let st1 : GatewayState :=
    { st with rateLimits := fun k => if k = req.client_ip then some rl.2 else st.rateLimits k }
  if rl.1 = false then ⟨⟨429⟩, st1, 0⟩
  else
    match resolve service_routes req.path with
    | none => ⟨⟨404⟩, st1, 0⟩
    | some route =>
      let al := cbAllow (st1.breakers route.name) now
      let st2 : GatewayState :=
        { st1 with breakers := fun k => if k = route.name then al.2 else st1.breakers k }
      if al.1 = false then ⟨⟨503⟩, st2, 0⟩
      else if (st2.health route.name).status = .unhealthy then ⟨⟨503⟩, st2, 0⟩
      else
        let fr := forward req.method backend
        let st3 : GatewayState :=
          { st2 with breakers :=
              fun k =>
                if k = route.name then cbRecordOutcome (st2.breakers route.name) fr.final now
                else st2.breakers k }
        ⟨⟨statusOf fr.final⟩, st3, fr.attempts⟩

/-- C2 counterexample: from the startup state, a request to the
unregistered path `/api/v1/unknown/x` is answered 404, yet the rate
limiter's counter for the client key has been mutated (a fresh window
with count 1 now exists where there was none), because the rate-limit
middleware runs before routing. -/
theorem c2_counterexample_rate_counter_mutated :
    (handleRequest initState ⟨.GET, "/api/v1/unknown/x", "203.0.113.5"⟩ 0
        (fun _ => .success)).resp.status = 404
    ∧ (handleRequest initState ⟨.GET, "/api/v1/unknown/x", "203.0.113.5"⟩ 0
        (fun _ => .success)).state.rateLimits "203.0.113.5" = some ⟨1, 0⟩
    ∧ initState.rateLimits "203.0.113.5" = none := by
  refine ⟨?_, ?_, rfl⟩ <;> decide

/-- C2 (amended): a request whose path matches no registered route is
answered with a 404-equivalent (or 429 when the rate-limit middleware
rejects it first); no outbound call is made and no circuit-breaker state
is mutated; but the rate limiter's window for the client's key is
updated by the middleware, which runs before routing. -/
theorem c2_unroutable_request (st : GatewayState) (req : Request) (now : Nat)
    (backend : Nat → Outcome)
    (hroute : resolve service_routes req.path = none) :
    ((handleRequest st req now backend).resp.status = 404
      ∨ (handleRequest st req now backend).resp.status = 429)
    ∧ (∀ k, (handleRequest st req now backend).state.breakers k = st.breakers k)
    ∧ (handleRequest st req now backend).outboundAttempts = 0
    ∧ (handleRequest st req now backend).state.rateLimits req.client_ip =
        some (checkAndIncrement (st.rateLimits req.client_ip)
          global_rate_limit_requests global_rate_limit_window now).2 := by
  simp only [handleRequest, hroute]
  by_cases hall : (checkAndIncrement (st.rateLimits req.client_ip)
      global_rate_limit_requests global_rate_limit_window now).1 = false
  · rw [if_pos hall]
    exact ⟨Or.inr rfl, fun k => rfl, rfl, by simp⟩
  · rw [if_neg hall]
    exact ⟨Or.inl rfl, fun k => rfl, rfl, by simp⟩

/-- C2 amended-claim witness: the concrete unroutable request of the
counterexample, with every hypothesis discharged by evaluation. -/
theorem c2_unroutable_request_witness :
    ((handleRequest initState ⟨.GET, "/api/v1/unknown/x", "203.0.113.5"⟩ 0
        (fun _ => .success)).resp.status = 404
      ∨ (handleRequest initState ⟨.GET, "/api/v1/unknown/x", "203.0.113.5"⟩ 0
        (fun _ => .success)).resp.status = 429)
    ∧ (handleRequest initState ⟨.GET, "/api/v1/unknown/x", "203.0.113.5"⟩ 0
        (fun _ => .success)).outboundAttempts = 0 :=
  ⟨(c2_unroutable_request initState ⟨.GET, "/api/v1/unknown/x", "203.0.113.5"⟩ 0
      (fun _ => .success) (by decide)).1,
    (c2_unroutable_request initState ⟨.GET, "/api/v1/unknown/x", "203.0.113.5"⟩ 0
      (fun _ => .success) (by decide)).2.2.1⟩

/-- C7: when the resolved service's circuit breaker is open and the
recovery timeout has not elapsed (and the rate-limit middleware admits
the request), the gateway answers 503, makes no outbound attempt, and
the breaker stays open. -/
theorem c7_open_circuit_short_circuits (st : GatewayState) (req : Request) (now : Nat)
    (backend : Nat → Outcome) (route : ServiceRoute)
    (hroute : resolve service_routes req.path = some route)
    (hallow : (checkAndIncrement (st.rateLimits req.client_ip)
      global_rate_limit_requests global_rate_limit_window now).1 = true)
    (hopen : (st.breakers route.name).state = .opened)
    (hrec : now - (st.breakers route.name).opened_at < circuit_breaker_recovery_timeout) :
    (handleRequest st req now backend).resp.status = 503
    ∧ (handleRequest st req now backend).outboundAttempts = 0
    ∧ ((handleRequest st req now backend).state.breakers route.name).state = .opened := by
  have hcb : cbAllow (st.breakers route.name) now = (false, st.breakers route.name) := by
    simp only [cbAllow, hopen]
    rw [if_neg (by omega)]
  simp [handleRequest, hroute, hallow, hcb, hopen]

/-- C7 witness: with the auth service's breaker open since time 0 and
the clock at 30 (< 60), a GET to `/api/v1/auth/login` from a fresh state
is answered 503 with zero outbound attempts. -/
theorem c7_open_circuit_witness :
    (handleRequest ⟨fun _ => none, fun _ => ⟨.opened, 5, 0, 0⟩, fun _ => initHealth⟩
        ⟨.GET, "/api/v1/auth/login", "203.0.113.5"⟩ 30 (fun _ => .success)).resp.status = 503
    ∧ (handleRequest ⟨fun _ => none, fun _ => ⟨.opened, 5, 0, 0⟩, fun _ => initHealth⟩
        ⟨.GET, "/api/v1/auth/login", "203.0.113.5"⟩ 30 (fun _ => .success)).outboundAttempts = 0 :=
  ⟨(c7_open_circuit_short_circuits
      ⟨fun _ => none, fun _ => ⟨.opened, 5, 0, 0⟩, fun _ => initHealth⟩
      ⟨.GET, "/api/v1/auth/login", "203.0.113.5"⟩ 30 (fun _ => .success)
      ⟨"auth", "/api/v1/auth", "http://user_service:8001", "/health", 100, 60⟩
      (by decide) (by decide) rfl (by decide)).1,
    (c7_open_circuit_short_circuits
      ⟨fun _ => none, fun _ => ⟨.opened, 5, 0, 0⟩, fun _ => initHealth⟩
      ⟨.GET, "/api/v1/auth/login", "203.0.113.5"⟩ 30 (fun _ => .success)
      ⟨"auth", "/api/v1/auth", "http://user_service:8001", "/health", 100, 60⟩
      (by decide) (by decide) rfl (by decide)).2.1⟩

/-- The handlers registered on the FastAPI app in
`src/api_gateway/main.py`, in registration order: the root endpoint
(line 186), the Prometheus metrics endpoint (line 197), the gateway's
own health endpoint (line 206), the catch-all proxy route (line 217),
and the per-service status endpoint (line 270). -/
inductive Handler
  | root
  | metricsEndpoint
  | healthEndpoint
  | proxy (captured : String)
  | apiStatus
deriving DecidableEq, Repr

/-- Route dispatch of `src/api_gateway/main.py` under Starlette
semantics: routes are tried in registration order and the first match
wins.  The catch-all `/api/v1/{path:path}` (methods GET, POST, PUT,
DELETE, PATCH) is registered at line 217, before the GET
`/api/v1/status` route at line 270; the path converter captures
everything after the `/api/v1/` prefix. -/
def dispatch (m : Method) (path : String) : Option Handler :=
  if m = .GET ∧ path = "/" then some .root
  else if m = .GET ∧ path = "/metrics" then some .metricsEndpoint
  else if m = .GET ∧ path = "/health" then some .healthEndpoint
  else if m ≠ .HEAD ∧ "/api/v1/".data.isPrefixOf path.data then
    some (.proxy (String.mk (path.data.drop 8)))
  else if m = .GET ∧ path = "/api/v1/status" then some .apiStatus
  else none

/-- Modelled from the spec: `GatewayService.get_services_status`, the
payload of the `api_status` handler (spec section 6): per registered
service, its name, health status, circuit state, and last check time. -/
def get_services_status (st : GatewayState) :
    List (String × HealthStatus × CBState × Nat) :=
  service_routes.map (fun r =>
    (r.name, (st.health r.name).status, (st.breakers r.name).state,
      (st.health r.name).last_check_time))

/-- C9: a GET to `/api/v1/status` is captured by the catch-all proxy
route registered before the status route, so it never reaches the
`api_status` handler; the proxy resolves no registered service for it
and answers 404 instead of the per-service aggregate (which, for the
startup state, would have been a six-entry list). -/
theorem c9_status_endpoint_shadowed :
    dispatch .GET "/api/v1/status" = some (Handler.proxy "status")
    ∧ dispatch .GET "/api/v1/status" ≠ some Handler.apiStatus
    ∧ (handleRequest initState ⟨.GET, "/api/v1/status", "203.0.113.5"⟩ 0
        (fun _ => .success)).resp.status = 404
    ∧ (get_services_status initState).length = 6 := by
  refine ⟨by decide, by decide, by decide, rfl⟩

/-- The gateway's own health endpoint body, from `health_check` in
`src/api_gateway/main.py` (lines 206-214): a constant service name,
the literal status `healthy`, the configured application version, and
the current timestamp. -/
structure HealthBody where
  service : String
  status : String
  version : String
  timestamp : Nat
deriving DecidableEq, Repr

/-- The `/health` handler of `src/api_gateway/main.py`: it reads no
gateway state — only the clock. -/
def health_check (_gstate : GatewayState) (now : Nat) : HealthBody :=
  ⟨"api-gateway", "healthy", app_version, now⟩

/-- C10: the gateway's own `/health` endpoint reports `healthy`
unconditionally — its body is identical across any two gateway states
(same timestamp), so it leaks nothing about backend health,
circuit-breaker or rate-limit state; and `/health` is dispatched to the
health handler, not the proxy. -/
theorem c10_health_endpoint_state_independent (s1 s2 : GatewayState) (t : Nat) :
    health_check s1 t = health_check s2 t
    ∧ (health_check s1 t).status = "healthy"
    ∧ dispatch .GET "/health" = some Handler.healthEndpoint :=
  ⟨rfl, rfl, by decide⟩
